import Mathlib

/-
Shallow embedding of the reconciliation/repair engine of the lorcana-cards
repository, translated from src/scripts/verify-and-fix.js (the version the
specification's line references point to: the ComprehensivePipelineValidator
class) together with the dimension check of src/scripts/core/validate.ts.

Image files are modelled by their probed pixel dimensions (an `Option Dim`:
`none` means the file does not exist, `some d` means it exists and
`sharp(path).metadata()` reports dimensions `d`).  AVIF siblings are only
ever probed for existence by the script, so they are modelled as `Bool`.
Network and codec outcomes are oracle parameters (`FixEnv`, `CropEnv`).
-/

namespace VerifyAndFix

/-- Pixel dimensions as reported by the metadata probe. -/
structure Dim where
  width : Nat
  height : Nat
deriving DecidableEq, Repr

/-- The PIPELINE_STEPS enum of verify-and-fix.js. -/
inductive Step
  | download
  | resizeOriginal
  | convertOriginal
  | cropArtOnly
  | convertArtOnly
  | cropArtAndName
  | convertArtAndName
deriving DecidableEq, Repr

/-- The six files of getFilePaths for one (card, language): the `path` field a
validation issue carries is always one of these six locations. -/
inductive Artifact
  | originalWebp
  | originalAvif
  | artOnlyWebp
  | artOnlyAvif
  | artAndNameWebp
  | artAndNameAvif
deriving DecidableEq, Repr

/-- One issue pushed by validateCard: the step to run and the path it was
reported against (the issue's `language` field is determined by the target:
art_only paths carry the literal string "shared", all others the card's
language, and it is never read downstream, so it is not modelled). -/
structure Issue where
  step : Step
  target : Artifact
deriving DecidableEq, Repr

/-- One WARN-level log line emitted by validateCard, identified by its site in
the source. -/
inductive Warn
  | originalMissing
  | originalWrongDims
  | originalAvifMissing
  | artOnlyMissing
  | artOnlyUncropped
  | artOnlyUnexpectedDims
  | artOnlyAvifMissing
  | artAndNameMissing
  | artAndNameUncropped
  | artAndNameUnexpectedDims
  | artAndNameAvifMissing
deriving DecidableEq, Repr

/-- The issues and WARN log lines produced by one validateCard call. -/
structure ValidationOutput where
  issues : List Issue
  warnings : List Warn
deriving DecidableEq, Repr

instance : Append ValidationOutput :=
  ⟨fun a b => ⟨a.issues ++ b.issues, a.warnings ++ b.warnings⟩⟩

/-- The fields of CONFIG that the validator and repair loop read
(edition, cardRange, downloadSource and verbose only feed I/O and logging). -/
structure Config where
  languages : List String
  skipVariants : Bool
  tolerancePx : Nat
deriving DecidableEq, Repr

/-- The argument of getExpectedDimensions (`original`, `art_only`,
`art_and_name`; every call site passes one of the three literals, so the JS
default branch is unreachable). -/
inductive VariantKind
  | original
  | artOnly
  | artAndName
deriving DecidableEq, Repr

/-- getExpectedDimensions of verify-and-fix.js. -/
def getExpectedDimensions : VariantKind → Dim
  | .original => ⟨734, 1024⟩
  | .artOnly => ⟨734, 603⟩
  | .artAndName => ⟨734, 767⟩

/-- Math.abs of the difference of two pixel counts. -/
def absDiff (a b : Nat) : Nat := ((a : Int) - (b : Int)).natAbs

/-- The six files of one (card, language) as the validator and fixer see them:
webp files are probed for dimensions, avif files only for existence. -/
structure CardFs where
  originalWebp : Option Dim
  originalAvif : Bool
  artOnlyWebp : Option Dim
  artOnlyAvif : Bool
  artAndNameWebp : Option Dim
  artAndNameAvif : Bool
deriving DecidableEq, Repr

/-- validateCard, Step 2: compare the original webp's probed dimensions to
getExpectedDimensions of `original`.  The comparison is exact
(`metadata.width !== expected.width || metadata.height !== expected.height`);
CONFIG.tolerancePx is not consulted here. -/
def checkOriginalDims (m : Dim) : ValidationOutput :=
  if m.width = (getExpectedDimensions .original).width ∧
      m.height = (getExpectedDimensions .original).height then ⟨[], []⟩
  else ⟨[⟨.resizeOriginal, .originalWebp⟩], [.originalWrongDims]⟩

/-- validateCard, Step 3: the original avif is checked for existence only,
whether or not a resize issue was just recorded. -/
def checkOriginalAvif (avifExists : Bool) : ValidationOutput :=
  if avifExists then ⟨[], []⟩
  else ⟨[⟨.convertOriginal, .originalAvif⟩], [.originalAvifMissing]⟩

/-- validateCard, Step 4: art_only checks, gated on
`!skipVariants && isFirstLanguage` where isFirstLanguage is
`language === languages[0]`.  A present file of height exactly 1024 is
"uncropped" and gets a crop issue; any other height merely logs a WARN when
it is off the expected 603 by more than tolerancePx. -/
def checkArtOnly (cfg : Config) (language : String) (webp : Option Dim)
    (avifExists : Bool) : ValidationOutput :=
  if cfg.skipVariants = false ∧ cfg.languages.head? = some language then
    (match webp with
      | none => ⟨[⟨.cropArtOnly, .artOnlyWebp⟩], [.artOnlyMissing]⟩
      | some am =>
        if am.height = 1024 then
          ⟨[⟨.cropArtOnly, .artOnlyWebp⟩], [.artOnlyUncropped]⟩
        else if absDiff am.height (getExpectedDimensions .artOnly).height >
            cfg.tolerancePx then
          ⟨[], [.artOnlyUnexpectedDims]⟩
        else ⟨[], []⟩) ++
    (if avifExists then ⟨[], []⟩
     else ⟨[⟨.convertArtOnly, .artOnlyAvif⟩], [.artOnlyAvifMissing]⟩)
  else ⟨[], []⟩

/-- validateCard, Step 5: art_and_name checks for the card's own language,
gated on `!skipVariants` only. -/
def checkArtAndName (cfg : Config) (webp : Option Dim)
    (avifExists : Bool) : ValidationOutput :=
  if cfg.skipVariants = false then
    (match webp with
      | none => ⟨[⟨.cropArtAndName, .artAndNameWebp⟩], [.artAndNameMissing]⟩
      | some am =>
        if am.height = 1024 then
          ⟨[⟨.cropArtAndName, .artAndNameWebp⟩], [.artAndNameUncropped]⟩
        else if absDiff am.height (getExpectedDimensions .artAndName).height >
            cfg.tolerancePx then
          ⟨[], [.artAndNameUnexpectedDims]⟩
        else ⟨[], []⟩) ++
    (if avifExists then ⟨[], []⟩
     else ⟨[⟨.convertArtAndName, .artAndNameAvif⟩], [.artAndNameAvifMissing]⟩)
  else ⟨[], []⟩

/-- validateCard of verify-and-fix.js: when the original webp is missing only
a download issue is recorded (Steps 2-5 are the else branch of that check);
otherwise Steps 2-5 run in order and their issues are concatenated. -/
def validateCard (cfg : Config) (language : String) (st : CardFs) :
    ValidationOutput :=
  match st.originalWebp with
  | none => ⟨[⟨.download, .originalWebp⟩], [.originalMissing]⟩
  | some m =>
    checkOriginalDims m ++
    checkOriginalAvif st.originalAvif ++
    checkArtOnly cfg language st.artOnlyWebp st.artOnlyAvif ++
    checkArtAndName cfg st.artAndNameWebp st.artAndNameAvif

/-- validateImage of src/scripts/core/validate.ts on an existing, readable
file: valid iff the probed dimensions equal TARGET_DIMENSIONS (734 by 1024)
exactly; the module defines no tolerance. -/
def validateImageValid (m : Dim) : Bool :=
  m.width = 734 ∧ m.height = 1024

/-- Crop positions of cropImage: `Math.floor(height * (artOnly ? 0.52 : 0.674))`.
The fractions are written as exact rationals; at the one source height the
function accepts (1024) the IEEE double products (532.48, 953.344, 690.176,
947.2 up to an error of about 1e-13) floor to the same integers. -/
def topEndHeight (artOnly : Bool) (h : Nat) : Nat :=
  if artOnly then h * 52 / 100 else h * 674 / 1000

/-- `Math.floor(height * (artOnly ? 0.931 : 0.925))` of cropImage. -/
def bottomStartHeight (artOnly : Bool) (h : Nat) : Nat :=
  if artOnly then h * 931 / 1000 else h * 925 / 1000

/-- Height of the vertically joined crop:
`(topEndHeight - 0) + (bottomEndHeight - bottomStartHeight)` with
`bottomEndHeight = Math.floor(height) = height`. -/
def cropHeight (artOnly : Bool) (h : Nat) : Nat :=
  topEndHeight artOnly h + (h - bottomStartHeight artOnly h)

/-- The files cropImage touches: the destination and the three temporaries
(`_temp_dest`, `_top`, `_bottom`).  The source file is read-only for this
operation and lives in the oracle. -/
structure CropFs where
  dest : Option Dim
  tempDest : Option Dim
  topFile : Option Dim
  bottomFile : Option Dim
deriving DecidableEq, Repr

/-- Oracle for the external codec calls inside one cropImage call:
`sourceDim` is what `sharp(sourceFile).metadata()` reports (`none` = the
probe throws, e.g. a corrupt or missing source); the three flags say whether
the corresponding sharp extract / joinImages write completes. -/
structure CropEnv where
  sourceDim : Option Dim
  extractTopOk : Bool
  extractBottomOk : Bool
  joinOk : Bool
deriving DecidableEq, Repr

/-- The catch-block of cropImage: delete whichever of tempDestination,
topFile, bottomFile exist. -/
def cleanupTemps (fs : CropFs) : CropFs :=
  { fs with tempDest := none, topFile := none, bottomFile := none }

/-- join-images with direction "vertical": widths are reconciled (equal here),
heights add. -/
def joinDims (top bottom : Dim) : Dim :=
  ⟨max top.width bottom.width, top.height + bottom.height⟩

/-- cropImage of verify-and-fix.js.  Returns the JS `return true` flag
(false = the thrown error reached the caller) and the resulting files.
Every failure path runs the catch-block cleanup; the destination is written
only by the final renameSync of the verified temporary. -/
def cropImage (env : CropEnv) (artOnly : Bool) (fs : CropFs) :
    Bool × CropFs :=
  match env.sourceDim with
  | none => (false, cleanupTemps fs)
  | some metadata =>
    if metadata.width = 734 ∧ metadata.height = 1024 then
      let topEnd := topEndHeight artOnly metadata.height
      let bottomStart := bottomStartHeight artOnly metadata.height
      if env.extractTopOk then
        let fs1 := { fs with topFile := some ⟨metadata.width, topEnd⟩ }
        if env.extractBottomOk then
          let fs2 := { fs1 with
            bottomFile := some ⟨metadata.width, metadata.height - bottomStart⟩ }
          if env.joinOk then
            let joined := joinDims ⟨metadata.width, topEnd⟩
              ⟨metadata.width, metadata.height - bottomStart⟩
            let fs3 := { fs2 with tempDest := some joined }
            if joined.width = 734 ∧
                joined.height = topEnd + (metadata.height - bottomStart) then
              (true, { fs3 with dest := some joined, tempDest := none,
                                topFile := none, bottomFile := none })
            else (false, cleanupTemps fs3)
          else (false, cleanupTemps fs2)
        else (false, cleanupTemps fs1)
      else (false, cleanupTemps fs)
    else (false, cleanupTemps fs)

/-- Oracle for the external effects of one fixIssue dispatch: what a download
attempt yields (`none` = every source fails, e.g. a permanent 404; `some d`
= the original webp is written with probed dimensions `d`).  The sharp
resize/convert/crop calls behave as specified when their inputs exist (their
individual failure modes are studied in `cropImage` above). -/
structure FixEnv where
  downloadDim : Option Dim
deriving DecidableEq, Repr

/-- fixIssue of verify-and-fix.js as a state transformer on the card's files:
the Bool is its return value (false = the catch branch ran, the failure was
counted and the files are as the failing operation left them).  Dispatch is
on the step alone; paths are recomputed from the card, not read from the
issue.  A crop sources from the original webp and, like cropImage, fails
without touching the destination unless the source is exactly 734 by 1024. -/
def fixIssue (env : FixEnv) (issue : Issue) (st : CardFs) : Bool × CardFs :=
  match issue.step with
  | .download =>
    match env.downloadDim with
    | none => (false, st)
    | some d => (true, { st with originalWebp := some d })
  | .resizeOriginal =>
    match st.originalWebp with
    | none => (false, st)
    | some _ =>
      (true, { st with originalWebp := some (getExpectedDimensions .original) })
  | .convertOriginal =>
    match st.originalWebp with
    | none => (false, st)
    | some _ => (true, { st with originalAvif := true })
  | .cropArtOnly =>
    match st.originalWebp with
    | none => (false, st)
    | some m =>
      if m.width = 734 ∧ m.height = 1024 then
        (true, { st with artOnlyWebp := some ⟨734, cropHeight true m.height⟩ })
      else (false, st)
  | .convertArtOnly =>
    match st.artOnlyWebp with
    | none => (false, st)
    | some _ => (true, { st with artOnlyAvif := true })
  | .cropArtAndName =>
    match st.originalWebp with
    | none => (false, st)
    | some m =>
      if m.width = 734 ∧ m.height = 1024 then
        (true, { st with
          artAndNameWebp := some ⟨734, cropHeight false m.height⟩ })
      else (false, st)
  | .convertArtAndName =>
    match st.artAndNameWebp with
    | none => (false, st)
    | some _ => (true, { st with artAndNameAvif := true })

/-- The order array of sortIssuesByPipelineOrder; stepIndex is
`order.indexOf(step)`. -/
def pipelineOrder : List Step :=
  [.download, .resizeOriginal, .convertOriginal,
   .cropArtOnly, .convertArtOnly, .cropArtAndName, .convertArtAndName]

/-- Position of a step in the pipeline order array. -/
def stepIndex (s : Step) : Nat := pipelineOrder.indexOf s

/-- The comparator `(a, b) => order.indexOf(a.step) - order.indexOf(b.step)`
as a relation: a sorts no later than b. -/
def issueLE (a b : Issue) : Prop := stepIndex a.step ≤ stepIndex b.step

instance : DecidableRel issueLE := fun a b =>
  inferInstanceAs (Decidable (stepIndex a.step ≤ stepIndex b.step))

instance : IsTotal Issue issueLE :=
  ⟨fun a b => Nat.le_total (stepIndex a.step) (stepIndex b.step)⟩

instance : IsTrans Issue issueLE := ⟨fun _ _ _ h1 h2 => Nat.le_trans h1 h2⟩

/-- sortIssuesByPipelineOrder: `issues.sort` with the comparator above.
JS Array.prototype.sort is a stable ascending sort, modelled by the stable
insertion sort. -/
def sortIssuesByPipelineOrder (issues : List Issue) : List Issue :=
  issues.insertionSort issueLE

/-- Result of the per-card while loop of validateAndFixAll, Phase 2:
the issues still open when the loop exits, the card's files, the ordered
list of steps the loop attempted (across all passes), and the number of
sort-apply-revalidate passes it ran. -/
structure RepairResult where
  remaining : List Issue
  fs : CardFs
  trace : List Step
  passes : Nat
deriving DecidableEq, Repr

/-- Result of one `for (const issue of sortedIssues)` body. -/
structure ApplyResult where
  fs : CardFs
  trace : List Step
deriving DecidableEq, Repr

/-- The inner for-loop of a repair pass: fixIssue on each issue in turn,
threading the files; a failed fix is recorded and the loop continues. -/
def applyFixes (env : FixEnv) : List Issue → CardFs → ApplyResult
  | [], st => ⟨st, []⟩
  | i :: rest, st =>
    let r := applyFixes env rest (fixIssue env i st).2
    ⟨r.fs, i.step :: r.trace⟩

/-- `let maxAttempts = 3` of validateAndFixAll. -/
def maxAttempts : Nat := 3

/-- The per-card while loop
`while (remainingIssues.length > 0 && attempt < maxAttempts)`, with
`fuel = maxAttempts - attempt`: each pass sorts the open issues by pipeline
order, applies fixes in that order, then re-validates the card from scratch. -/
def repairLoop (env : FixEnv) (cfg : Config) (language : String) :
    Nat → List Issue → CardFs → RepairResult
  | 0, remaining, st => ⟨remaining, st, [], 0⟩
  | fuel + 1, remaining, st =>
    if remaining.isEmpty then ⟨remaining, st, [], 0⟩
    else
      let applied := applyFixes env (sortIssuesByPipelineOrder remaining) st
      let r := repairLoop env cfg language fuel
        (validateCard cfg language applied.fs).issues applied.fs
      ⟨r.remaining, r.fs, applied.trace ++ r.trace, r.passes + 1⟩

/-- The whole per-card repair of validateAndFixAll, Phase 2, starting from
the issue list Phase 1 recorded for the card. -/
def repairCard (env : FixEnv) (cfg : Config) (language : String)
    (issues : List Issue) (st : CardFs) : RepairResult :=
  repairLoop env cfg language maxAttempts issues st

@[simp] theorem ValidationOutput.append_issues (a b : ValidationOutput) :
    (a ++ b).issues = a.issues ++ b.issues := rfl

@[simp] theorem ValidationOutput.append_warnings (a b : ValidationOutput) :
    (a ++ b).warnings = a.warnings ++ b.warnings := rfl

/-- Helper: any issue of the Step 2 check is the resize issue on the
original webp. -/
theorem mem_checkOriginalDims {m : Dim} {i : Issue}
    (h : i ∈ (checkOriginalDims m).issues) :
    i = ⟨.resizeOriginal, .originalWebp⟩ := by
  unfold checkOriginalDims at h
  split at h <;> simp_all

/-- Helper: any issue of the Step 3 check is the convert issue on the
original avif. -/
theorem mem_checkOriginalAvif {b : Bool} {i : Issue}
    (h : i ∈ (checkOriginalAvif b).issues) :
    i = ⟨.convertOriginal, .originalAvif⟩ := by
  unfold checkOriginalAvif at h
  split at h <;> simp_all

/-- Helper: any issue of the Step 4 check is an art_only crop or convert
issue on the shared art_only files. -/
theorem mem_checkArtOnly {cfg : Config} {language : String} {w : Option Dim}
    {b : Bool} {i : Issue} (h : i ∈ (checkArtOnly cfg language w b).issues) :
    i = ⟨.cropArtOnly, .artOnlyWebp⟩ ∨ i = ⟨.convertArtOnly, .artOnlyAvif⟩ := by
  unfold checkArtOnly at h
  split at h
  · rcases w with _ | am <;>
      simp only [ValidationOutput.append_issues, List.mem_append] at h <;>
      rcases h with h | h <;>
      (try split at h) <;> (try split at h) <;> simp_all
  · simp_all

/-- Helper: any issue of the Step 5 check is an art_and_name crop or convert
issue on the card's art_and_name files. -/
theorem mem_checkArtAndName {cfg : Config} {w : Option Dim} {b : Bool}
    {i : Issue} (h : i ∈ (checkArtAndName cfg w b).issues) :
    i = ⟨.cropArtAndName, .artAndNameWebp⟩ ∨
      i = ⟨.convertArtAndName, .artAndNameAvif⟩ := by
  unfold checkArtAndName at h
  split at h
  · rcases w with _ | am <;>
      simp only [ValidationOutput.append_issues, List.mem_append] at h <;>
      rcases h with h | h <;>
      (try split at h) <;> (try split at h) <;> simp_all
  · simp_all

/-- Helper: when the language is not the first configured language, the
art_only block is skipped entirely. -/
theorem checkArtOnly_not_first {cfg : Config} {language : String}
    {w : Option Dim} {b : Bool} (h : ¬ cfg.languages.head? = some language) :
    checkArtOnly cfg language w b = ⟨[], []⟩ := by
  unfold checkArtOnly
  rw [if_neg]
  intro hc
  exact h hc.2

/-- Helper: a cropped art_and_name webp (height not 1024) contributes no
crop issue; its only possible issue is the missing-avif convert issue. -/
theorem checkArtAndName_cropped_issues {cfg : Config} {am : Dim} {b : Bool}
    (h : am.height ≠ 1024) :
    (checkArtAndName cfg (some am) b).issues =
      if cfg.skipVariants = false ∧ b = false then
        [⟨.convertArtAndName, .artAndNameAvif⟩]
      else [] := by
  unfold checkArtAndName
  rcases hs : cfg.skipVariants <;> rcases hb : b <;>
    simp [hs, hb, h] <;> split <;> simp

/-- Helper: warnings of the Step 5 check on a cropped art_and_name webp:
the unexpected-dimensions warning fires exactly when the height is off the
expected 767 by more than the tolerance (and variants are checked). -/
theorem checkArtAndName_cropped_warnings {cfg : Config} {am : Dim} {b : Bool}
    (h : am.height ≠ 1024) :
    (Warn.artAndNameUnexpectedDims ∈ (checkArtAndName cfg (some am) b).warnings
      ↔ cfg.skipVariants = false ∧
        absDiff am.height (getExpectedDimensions .artAndName).height >
          cfg.tolerancePx) := by
  unfold checkArtAndName
  rcases hs : cfg.skipVariants <;> simp [hs, h] <;> split <;>
    (try split) <;> simp_all

/-- Helper: warnings of the Step 4 check on a cropped art_only webp. -/
theorem checkArtOnly_cropped_warnings {cfg : Config} {language : String}
    {am : Dim} {b : Bool} (h : am.height ≠ 1024) :
    (Warn.artOnlyUnexpectedDims ∈
        (checkArtOnly cfg language (some am) b).warnings
      ↔ (cfg.skipVariants = false ∧ cfg.languages.head? = some language) ∧
        absDiff am.height (getExpectedDimensions .artOnly).height >
          cfg.tolerancePx) := by
  unfold checkArtOnly
  split <;> rename_i hgate
  · simp [h] ; split <;> split <;> simp_all
  · simp_all

/-- Helper: the issue list of validateCard when the original webp exists. -/
theorem validateCard_issues_of_some {cfg : Config} {language : String}
    {st : CardFs} {m : Dim} (hm : st.originalWebp = some m) :
    (validateCard cfg language st).issues =
      (checkOriginalDims m).issues ++
      (checkOriginalAvif st.originalAvif).issues ++
      (checkArtOnly cfg language st.artOnlyWebp st.artOnlyAvif).issues ++
      (checkArtAndName cfg st.artAndNameWebp st.artAndNameAvif).issues := by
  unfold validateCard
  rw [hm]
  simp

/-- Helper: a cropped art_only webp (height not 1024) contributes no crop
issue; its only possible issue is the missing-avif convert issue. -/
theorem checkArtOnly_cropped_issues {cfg : Config} {language : String}
    {am : Dim} {b : Bool} (h : am.height ≠ 1024) :
    (checkArtOnly cfg language (some am) b).issues =
      if (cfg.skipVariants = false ∧ cfg.languages.head? = some language) ∧
          b = false then
        [⟨.convertArtOnly, .artOnlyAvif⟩]
      else [] := by
  unfold checkArtOnly
  rcases hb : b <;> split <;> rename_i hgate <;>
    simp [hgate, hb, h] <;> split <;> simp

/-- Helper: any warning of the Step 2 check is the wrong-dimensions one. -/
theorem mem_checkOriginalDims_warn {m : Dim} {w : Warn}
    (h : w ∈ (checkOriginalDims m).warnings) : w = .originalWrongDims := by
  unfold checkOriginalDims at h
  split at h <;> simp_all

/-- Helper: any warning of the Step 3 check is the missing-avif one. -/
theorem mem_checkOriginalAvif_warn {b : Bool} {w : Warn}
    (h : w ∈ (checkOriginalAvif b).warnings) : w = .originalAvifMissing := by
  unfold checkOriginalAvif at h
  split at h <;> simp_all

/-- Helper: any warning of the Step 4 check is one of the art_only ones. -/
theorem mem_checkArtOnly_warn {cfg : Config} {language : String}
    {ow : Option Dim} {b : Bool} {w : Warn}
    (h : w ∈ (checkArtOnly cfg language ow b).warnings) :
    w = .artOnlyMissing ∨ w = .artOnlyUncropped ∨
      w = .artOnlyUnexpectedDims ∨ w = .artOnlyAvifMissing := by
  unfold checkArtOnly at h
  split at h
  · rcases ow with _ | am <;>
      simp only [ValidationOutput.append_warnings, List.mem_append] at h <;>
      rcases h with h | h <;>
      (try split at h) <;> (try split at h) <;> simp_all
  · simp_all

/-- Helper: any warning of the Step 5 check is one of the art_and_name
ones. -/
theorem mem_checkArtAndName_warn {cfg : Config} {ow : Option Dim} {b : Bool}
    {w : Warn} (h : w ∈ (checkArtAndName cfg ow b).warnings) :
    w = .artAndNameMissing ∨ w = .artAndNameUncropped ∨
      w = .artAndNameUnexpectedDims ∨ w = .artAndNameAvifMissing := by
  unfold checkArtAndName at h
  split at h
  · rcases ow with _ | am <;>
      simp only [ValidationOutput.append_warnings, List.mem_append] at h <;>
      rcases h with h | h <;>
      (try split at h) <;> (try split at h) <;> simp_all
  · simp_all

/-- Helper: the repair loop runs at most as many passes as it has fuel. -/
theorem repairLoop_passes_le (env : FixEnv) (cfg : Config) (language : String) :
    ∀ (fuel : Nat) (remaining : List Issue) (st : CardFs),
      (repairLoop env cfg language fuel remaining st).passes ≤ fuel := by
  intro fuel
  induction fuel with
  | zero => intro remaining st; simp [repairLoop]
  | succ n ih =>
    intro remaining st
    unfold repairLoop
    split
    · simp
    · simpa using ih _ _

/-- Helper: a fix for a step other than the two art_only steps never touches
the shared art_only files. -/
theorem fixIssue_preserves_artOnly (env : FixEnv) (i : Issue) (st : CardFs)
    (h1 : i.step ≠ .cropArtOnly) (h2 : i.step ≠ .convertArtOnly) :
    ((fixIssue env i st).2).artOnlyWebp = st.artOnlyWebp ∧
      ((fixIssue env i st).2).artOnlyAvif = st.artOnlyAvif := by
  unfold fixIssue
  rcases hs : i.step <;> simp_all <;>
    (try split) <;> (try split) <;> simp_all

/-- Helper: a pass whose issue list contains no art_only step leaves the
art_only files unchanged. -/
theorem applyFixes_preserves_artOnly (env : FixEnv) :
    ∀ (l : List Issue) (st : CardFs),
      (∀ i ∈ l, i.step ≠ .cropArtOnly ∧ i.step ≠ .convertArtOnly) →
      (applyFixes env l st).fs.artOnlyWebp = st.artOnlyWebp ∧
        (applyFixes env l st).fs.artOnlyAvif = st.artOnlyAvif := by
  intro l
  induction l with
  | nil => intro st _; simp [applyFixes]
  | cons i rest ih =>
    intro st hl
    have hi := hl i (by simp)
    have hrest := ih (fixIssue env i st).2 (fun j hj => hl j (by simp [hj]))
    have hfix := fixIssue_preserves_artOnly env i st hi.1 hi.2
    unfold applyFixes
    exact ⟨hrest.1.trans hfix.1, hrest.2.trans hfix.2⟩

/-- Helper: for a non-first language, validateCard emits no art_only step. -/
theorem validateCard_no_artOnly (cfg : Config) (language : String)
    (st : CardFs) (h : ¬ cfg.languages.head? = some language) :
    ∀ i ∈ (validateCard cfg language st).issues,
      i.step ≠ .cropArtOnly ∧ i.step ≠ .convertArtOnly := by
  intro i hi
  rcases hm : st.originalWebp with _ | m
  · unfold validateCard at hi
    rw [hm] at hi
    simp at hi
    simp [hi]
  · rw [validateCard_issues_of_some hm, checkArtOnly_not_first h] at hi
    simp only [List.mem_append] at hi
    rcases hi with ((hi | hi) | hi) | hi
    · rw [mem_checkOriginalDims hi]; exact ⟨by simp, by simp⟩
    · rw [mem_checkOriginalAvif hi]; exact ⟨by simp, by simp⟩
    · simp at hi
    · rcases mem_checkArtAndName hi with hi | hi <;> rw [hi] <;>
        exact ⟨by simp, by simp⟩

/-- Helper: for a non-first language, the whole repair loop leaves the shared
art_only files unchanged, provided the open issues come from validateCard
(as they do on every pass, the initial Phase 1 list included). -/
theorem repairLoop_preserves_artOnly (env : FixEnv) (cfg : Config)
    (language : String) (h : ¬ cfg.languages.head? = some language) :
    ∀ (fuel : Nat) (remaining : List Issue) (st : CardFs),
      (∀ i ∈ remaining, i.step ≠ .cropArtOnly ∧ i.step ≠ .convertArtOnly) →
      (repairLoop env cfg language fuel remaining st).fs.artOnlyWebp =
          st.artOnlyWebp ∧
        (repairLoop env cfg language fuel remaining st).fs.artOnlyAvif =
          st.artOnlyAvif := by
  intro fuel
  induction fuel with
  | zero => intro remaining st _; simp [repairLoop]
  | succ n ih =>
    intro remaining st hrem
    unfold repairLoop
    split
    · exact ⟨rfl, rfl⟩
    · have hsorted : ∀ i ∈ sortIssuesByPipelineOrder remaining,
          i.step ≠ .cropArtOnly ∧ i.step ≠ .convertArtOnly := by
        intro i hi
        exact hrem i ((List.mem_insertionSort issueLE).mp hi)
      have happly := applyFixes_preserves_artOnly env
        (sortIssuesByPipelineOrder remaining) st hsorted
      have hnext := ih
        (validateCard cfg language
          (applyFixes env (sortIssuesByPipelineOrder remaining) st).fs).issues
        (applyFixes env (sortIssuesByPipelineOrder remaining) st).fs
        (validateCard_no_artOnly cfg language _ h)
      exact ⟨hnext.1.trans happly.1, hnext.2.trans happly.2⟩

/-- Helper: the warning list of validateCard when the original webp exists. -/
theorem validateCard_warnings_of_some {cfg : Config} {language : String}
    {st : CardFs} {m : Dim} (hm : st.originalWebp = some m) :
    (validateCard cfg language st).warnings =
      (checkOriginalDims m).warnings ++
      (checkOriginalAvif st.originalAvif).warnings ++
      (checkArtOnly cfg language st.artOnlyWebp st.artOnlyAvif).warnings ++
      (checkArtAndName cfg st.artAndNameWebp st.artAndNameAvif).warnings := by
  unfold validateCard
  rw [hm]
  simp

/-- Claim C1: whenever validateCard probes a variant webp (original present,
variants not skipped, and for art_only the first-language gate) and its height
equals the original's full expected height 1024, the corresponding crop issue
is emitted; and every resize issue the validator ever emits is reported
against the original webp, never against a variant. -/
theorem crop_resize_discrimination (cfg : Config) (language : String)
    (st : CardFs) :
    (∀ m am, st.originalWebp = some m → cfg.skipVariants = false →
      cfg.languages.head? = some language → st.artOnlyWebp = some am →
      am.height = 1024 →
      (⟨.cropArtOnly, .artOnlyWebp⟩ : Issue) ∈
        (validateCard cfg language st).issues) ∧
    (∀ m am, st.originalWebp = some m → cfg.skipVariants = false →
      st.artAndNameWebp = some am → am.height = 1024 →
      (⟨.cropArtAndName, .artAndNameWebp⟩ : Issue) ∈
        (validateCard cfg language st).issues) ∧
    (∀ i ∈ (validateCard cfg language st).issues,
      i.step = .resizeOriginal → i.target = .originalWebp) := by
  refine ⟨?_, ?_, ?_⟩
  · intro m am hm hskip hfirst hw h1024
    rw [validateCard_issues_of_some hm, hw]
    simp [checkArtOnly, hskip, hfirst, h1024]
  · intro m am hm hskip hw h1024
    rw [validateCard_issues_of_some hm, hw]
    simp [checkArtAndName, hskip, h1024]
  · intro i hi hstep
    rcases hm : st.originalWebp with _ | m
    · unfold validateCard at hi
      rw [hm] at hi
      simp at hi
      rw [hi] at hstep
      simp at hstep
    · rw [validateCard_issues_of_some hm] at hi
      simp only [List.mem_append] at hi
      rcases hi with ((hi | hi) | hi) | hi
      · rw [mem_checkOriginalDims hi]
      · rw [mem_checkOriginalAvif hi] at hstep
        simp at hstep
      · rcases mem_checkArtOnly hi with hi | hi <;> rw [hi] at hstep <;>
          simp at hstep
      · rcases mem_checkArtAndName hi with hi | hi <;> rw [hi] at hstep <;>
          simp at hstep

/-- Witness for C1 on a card whose art_only and art_and_name webp files are
both uncropped (height 1024). -/
theorem crop_resize_discrimination_witness :
    (⟨.cropArtOnly, .artOnlyWebp⟩ : Issue) ∈
      (validateCard ⟨["EN"], false, 2⟩ "EN"
        ⟨some ⟨734, 1024⟩, true, some ⟨734, 1024⟩, true,
         some ⟨734, 1024⟩, true⟩).issues ∧
    (⟨.cropArtAndName, .artAndNameWebp⟩ : Issue) ∈
      (validateCard ⟨["EN"], false, 2⟩ "EN"
        ⟨some ⟨734, 1024⟩, true, some ⟨734, 1024⟩, true,
         some ⟨734, 1024⟩, true⟩).issues :=
  ⟨(crop_resize_discrimination ⟨["EN"], false, 2⟩ "EN"
      ⟨some ⟨734, 1024⟩, true, some ⟨734, 1024⟩, true,
       some ⟨734, 1024⟩, true⟩).1
      ⟨734, 1024⟩ ⟨734, 1024⟩ rfl rfl rfl rfl rfl,
   (crop_resize_discrimination ⟨["EN"], false, 2⟩ "EN"
      ⟨some ⟨734, 1024⟩, true, some ⟨734, 1024⟩, true,
       some ⟨734, 1024⟩, true⟩).2.1
      ⟨734, 1024⟩ ⟨734, 1024⟩ rfl rfl rfl rfl⟩

/-- Claim C2: the per-card repair loop runs at most maxAttempts = 3
sort-apply-revalidate passes, and a card whose original is missing while
every download attempt fails (permanent NotFound) exits after exactly 3
passes with the unchanged, non-empty issue set consisting of the download
issue, the files untouched. -/
theorem bounded_retry (env : FixEnv) (cfg : Config) (language : String)
    (issues : List Issue) (st : CardFs) :
    maxAttempts = 3 ∧
    (repairCard env cfg language issues st).passes ≤ maxAttempts ∧
    (st.originalWebp = none → env.downloadDim = none →
      repairCard env cfg language (validateCard cfg language st).issues st =
        ⟨[⟨.download, .originalWebp⟩], st,
         [.download, .download, .download], 3⟩) := by
  refine ⟨rfl, repairLoop_passes_le env cfg language maxAttempts issues st, ?_⟩
  intro h1 h2
  have hv : validateCard cfg language st =
      ⟨[⟨.download, .originalWebp⟩], [.originalMissing]⟩ := by
    unfold validateCard
    rw [h1]
  have happ : applyFixes env
      (sortIssuesByPipelineOrder [⟨.download, .originalWebp⟩]) st =
      ⟨st, [.download]⟩ := by
    simp [sortIssuesByPipelineOrder, List.insertionSort, List.orderedInsert,
      applyFixes, fixIssue, h2]
  have hpass : ∀ n, repairLoop env cfg language (n + 1)
      [⟨.download, .originalWebp⟩] st =
      ⟨(repairLoop env cfg language n [⟨.download, .originalWebp⟩] st).remaining,
       (repairLoop env cfg language n [⟨.download, .originalWebp⟩] st).fs,
       .download ::
         (repairLoop env cfg language n [⟨.download, .originalWebp⟩] st).trace,
       (repairLoop env cfg language n [⟨.download, .originalWebp⟩] st).passes
         + 1⟩ := by
    intro n
    conv_lhs => unfold repairLoop
    simp [happ, hv]
  show repairLoop env cfg language maxAttempts
      (validateCard cfg language st).issues st = _
  rw [hv]
  show repairLoop env cfg language 3 [⟨.download, .originalWebp⟩] st = _
  rw [hpass 2, hpass 1, hpass 0]
  simp [repairLoop]

/-- Witness for C2 on an entirely missing card with a dead network. -/
theorem bounded_retry_witness :
    repairCard ⟨none⟩ ⟨["EN"], false, 2⟩ "EN"
      (validateCard ⟨["EN"], false, 2⟩ "EN"
        ⟨none, false, none, false, none, false⟩).issues
      ⟨none, false, none, false, none, false⟩ =
      ⟨[⟨.download, .originalWebp⟩], ⟨none, false, none, false, none, false⟩,
       [.download, .download, .download], 3⟩ :=
  (bounded_retry ⟨none⟩ ⟨["EN"], false, 2⟩ "EN" []
    ⟨none, false, none, false, none, false⟩).2.2 rfl rfl

/-- Claim C3: cropImage is atomic: whatever the codec outcomes, after the
call no temporary file remains; if the call failed the destination is exactly
what it was before; and if it succeeded the destination holds the image whose
dimensions were verified against the computed expected height, which also
certifies the source was exactly 734 by 1024. -/
theorem crop_atomicity (env : CropEnv) (artOnly : Bool) (fs : CropFs) :
    ((cropImage env artOnly fs).2.tempDest = none ∧
     (cropImage env artOnly fs).2.topFile = none ∧
     (cropImage env artOnly fs).2.bottomFile = none) ∧
    ((cropImage env artOnly fs).1 = false →
      (cropImage env artOnly fs).2.dest = fs.dest) ∧
    ((cropImage env artOnly fs).1 = true →
      ∃ m, env.sourceDim = some m ∧ m.width = 734 ∧ m.height = 1024 ∧
        (cropImage env artOnly fs).2.dest =
          some ⟨734, topEndHeight artOnly m.height +
            (m.height - bottomStartHeight artOnly m.height)⟩) := by
  obtain ⟨sd, et, eb, jk⟩ := env
  rcases sd with _ | m
  · simp [cropImage, cleanupTemps]
  · by_cases hw : m.width = 734 ∧ m.height = 1024
    · rcases et <;> rcases eb <;> rcases jk <;>
        simp [cropImage, cleanupTemps, joinDims, hw]
    · simp [cropImage, cleanupTemps, hw]

/-- Witness for C3: a failing join (the temp destination is never produced)
leaves a pre-existing destination untouched. -/
theorem crop_atomicity_witness :
    (cropImage ⟨some ⟨734, 1024⟩, true, true, false⟩ true
        ⟨some ⟨700, 900⟩, some ⟨1, 1⟩, none, none⟩).2.dest =
      some ⟨700, 900⟩ :=
  (crop_atomicity ⟨some ⟨734, 1024⟩, true, true, false⟩ true
    ⟨some ⟨700, 900⟩, some ⟨1, 1⟩, none, none⟩).2.1 rfl

/-- Claim C4: sortIssuesByPipelineOrder returns a permutation of the issue
list sorted by the strict pipeline-step order, and is applied every pass; a
card missing its original and its art_and_name files (simultaneous download,
crop_art_and_name and convert_art_and_name deficiencies) is repaired across
passes in exactly the order download, convert_original, crop_art_and_name,
convert_art_and_name: the crop only runs in the pass after the original was
downloaded and re-validated. -/
theorem pipeline_ordering :
    (∀ issues : List Issue,
      List.Sorted issueLE (sortIssuesByPipelineOrder issues) ∧
      List.Perm (sortIssuesByPipelineOrder issues) issues) ∧
    repairCard ⟨some ⟨734, 1024⟩⟩ ⟨["EN", "IT"], false, 2⟩ "IT"
      (validateCard ⟨["EN", "IT"], false, 2⟩ "IT"
        ⟨none, false, some ⟨734, 603⟩, true, none, false⟩).issues
      ⟨none, false, some ⟨734, 603⟩, true, none, false⟩ =
      ⟨[], ⟨some ⟨734, 1024⟩, true, some ⟨734, 603⟩, true,
            some ⟨734, 767⟩, true⟩,
       [.download, .convertOriginal, .cropArtAndName, .convertArtAndName],
       2⟩ :=
  ⟨fun issues =>
    ⟨List.sorted_insertionSort issueLE issues,
     List.perm_insertionSort issueLE issues⟩,
   by decide⟩

/-- Claim C5: the crop pixel math at the accepted source size 734 by 1024:
topEndPx = floor(1024 times the top fraction), bottomStartPx = floor(1024
times the bottom-start fraction), final height topEndPx + (1024 −
bottomStartPx); numerically 532 + 71 = 603 for art_only and 690 + 77 = 767
for art_and_name, matching getExpectedDimensions, and an ideal-codec
cropImage run writes exactly these dimensions whatever was on disk before. -/
theorem crop_pixel_math (fs : CropFs) :
    topEndHeight true 1024 = 532 ∧ bottomStartHeight true 1024 = 953 ∧
    topEndHeight false 1024 = 690 ∧ bottomStartHeight false 1024 = 947 ∧
    cropHeight true 1024 = 532 + (1024 - 953) ∧
    cropHeight false 1024 = 690 + (1024 - 947) ∧
    (⟨734, cropHeight true 1024⟩ : Dim) = getExpectedDimensions .artOnly ∧
    (⟨734, cropHeight false 1024⟩ : Dim) = getExpectedDimensions .artAndName ∧
    cropImage ⟨some ⟨734, 1024⟩, true, true, true⟩ true fs =
      (true, { fs with dest := some ⟨734, 603⟩, tempDest := none,
                       topFile := none, bottomFile := none }) ∧
    cropImage ⟨some ⟨734, 1024⟩, true, true, true⟩ false fs =
      (true, { fs with dest := some ⟨734, 767⟩, tempDest := none,
                       topFile := none, bottomFile := none }) :=
  ⟨rfl, rfl, rfl, rfl, rfl, rfl, rfl, rfl, rfl, rfl⟩

/-- Claim C6: for a language other than the first configured (primary)
language, validateCard never emits a crop_art_only or convert_art_only issue,
and consequently the whole per-card repair loop for such a language leaves
the shared art_only files exactly as they were: art_only artifacts are
written only during the primary language's pass. -/
theorem artonly_exclusivity (env : FixEnv) (cfg : Config) (language : String)
    (st : CardFs) (h : ¬ cfg.languages.head? = some language) :
    (∀ i ∈ (validateCard cfg language st).issues,
      i.step ≠ .cropArtOnly ∧ i.step ≠ .convertArtOnly) ∧
    (repairCard env cfg language (validateCard cfg language st).issues
        st).fs.artOnlyWebp = st.artOnlyWebp ∧
    (repairCard env cfg language (validateCard cfg language st).issues
        st).fs.artOnlyAvif = st.artOnlyAvif :=
  ⟨validateCard_no_artOnly cfg language st h,
   (repairLoop_preserves_artOnly env cfg language h maxAttempts
     (validateCard cfg language st).issues st
     (validateCard_no_artOnly cfg language st h)).1,
   (repairLoop_preserves_artOnly env cfg language h maxAttempts
     (validateCard cfg language st).issues st
     (validateCard_no_artOnly cfg language st h)).2⟩

/-- Witness for C6: an IT pass of a two-language run repairs the card without
touching the shared art_only files. -/
theorem artonly_exclusivity_witness :
    ¬ (⟨["EN", "IT"], false, 2⟩ : Config).languages.head? = some "IT" ∧
    (repairCard ⟨some ⟨734, 1024⟩⟩ ⟨["EN", "IT"], false, 2⟩ "IT"
      (validateCard ⟨["EN", "IT"], false, 2⟩ "IT"
        ⟨none, false, some ⟨734, 603⟩, true, none, false⟩).issues
      ⟨none, false, some ⟨734, 603⟩, true, none, false⟩).fs.artOnlyWebp =
      some ⟨734, 603⟩ :=
  ⟨by decide,
   (artonly_exclusivity ⟨some ⟨734, 1024⟩⟩ ⟨["EN", "IT"], false, 2⟩ "IT"
     ⟨none, false, some ⟨734, 603⟩, true, none, false⟩ (by decide)).2.1⟩

/-- Claim C7 (divergence witness): an original webp probed at 733 by 1023 is
within the documented ±2px tolerance of 734 by 1024 on both axes, yet
validateCard flags it with a ResizeOriginal issue because its Step 2
comparison is exact, and validateImage of core/validate.ts likewise rejects
it: the code never applies CONFIG.tolerancePx to the original's dimension
check. -/
theorem resize_flag_within_tolerance :
    (validateCard ⟨["EN"], true, 2⟩ "EN"
      ⟨some ⟨733, 1023⟩, true, none, false, none, false⟩).issues =
      [⟨.resizeOriginal, .originalWebp⟩] ∧
    absDiff 733 (getExpectedDimensions .original).width ≤ 2 ∧
    absDiff 1023 (getExpectedDimensions .original).height ≤ 2 ∧
    validateImageValid ⟨733, 1023⟩ = false := by
  decide

/-- Claim C8 counterexample: an existing original with wrong dimensions and a
missing avif sibling receives the ResizeOriginal and the ConvertOriginal
issue in the same validation pass, refuting the claim that a resize flag
suppresses the alternate-format check. -/
theorem resize_convert_cooccur :
    (validateCard ⟨["EN"], true, 2⟩ "EN"
      ⟨some ⟨700, 1000⟩, false, none, false, none, false⟩).issues =
      [⟨.resizeOriginal, .originalWebp⟩, ⟨.convertOriginal, .originalAvif⟩] := by
  decide

/-- Claim C8 as amended: the alternate-format check of the original runs
whenever the original webp exists, regardless of the resize flag: a missing
avif always yields ConvertOriginal, and when the dimensions are also wrong
ResizeOriginal is emitted alongside it in the same pass. -/
theorem convert_check_unconditional (cfg : Config) (language : String)
    (st : CardFs) (m : Dim) (hm : st.originalWebp = some m)
    (ha : st.originalAvif = false) :
    (⟨.convertOriginal, .originalAvif⟩ : Issue) ∈
      (validateCard cfg language st).issues ∧
    ((m.width ≠ 734 ∨ m.height ≠ 1024) →
      (⟨.resizeOriginal, .originalWebp⟩ : Issue) ∈
        (validateCard cfg language st).issues) := by
  constructor
  · rw [validateCard_issues_of_some hm, ha]
    simp [checkOriginalAvif]
  · intro hne
    rw [validateCard_issues_of_some hm]
    have hdims : checkOriginalDims m =
        ⟨[⟨.resizeOriginal, .originalWebp⟩], [.originalWrongDims]⟩ := by
      unfold checkOriginalDims
      rw [if_neg]
      rintro ⟨h1, h2⟩
      rcases hne with hne | hne
      · exact hne h1
      · exact hne h2
    rw [hdims]
    simp

/-- Witness for C8 as amended, at the same 700 by 1000 input as the
counterexample. -/
theorem convert_check_unconditional_witness :
    (⟨.convertOriginal, .originalAvif⟩ : Issue) ∈
      (validateCard ⟨["EN"], true, 2⟩ "EN"
        ⟨some ⟨700, 1000⟩, false, none, false, none, false⟩).issues ∧
    (⟨.resizeOriginal, .originalWebp⟩ : Issue) ∈
      (validateCard ⟨["EN"], true, 2⟩ "EN"
        ⟨some ⟨700, 1000⟩, false, none, false, none, false⟩).issues :=
  ⟨(convert_check_unconditional ⟨["EN"], true, 2⟩ "EN"
      ⟨some ⟨700, 1000⟩, false, none, false, none, false⟩ ⟨700, 1000⟩
      rfl rfl).1,
   (convert_check_unconditional ⟨["EN"], true, 2⟩ "EN"
      ⟨some ⟨700, 1000⟩, false, none, false, none, false⟩ ⟨700, 1000⟩
      rfl rfl).2 (by decide)⟩

/-- Claim C9 counterexample: an art_and_name webp of height 770, exactly
expected + (tolerancePx + 1) past the expected 767, produces no Issue at
all — only the unexpected-dimensions warning — on an otherwise fully
converged card. -/
theorem variant_beyond_tolerance_no_issue :
    (validateCard ⟨["EN"], false, 2⟩ "EN"
      ⟨some ⟨734, 1024⟩, true, some ⟨734, 603⟩, true,
       some ⟨734, 770⟩, true⟩) =
      ⟨[], [.artAndNameUnexpectedDims]⟩ ∧
    (770 : Nat) = (getExpectedDimensions .artAndName).height + (2 + 1) := by
  decide

/-- Claim C9 as amended: an existing variant whose height is not the 1024
uncropped signal never receives an Issue, whatever its height; a height
within tolerancePx of the variant's expected height is accepted silently
while a larger deviation is only logged as a data-integrity warning (the
warning fires exactly when the deviation exceeds the tolerance and the
variant is checked at all). -/
theorem variant_tolerance_boundary (cfg : Config) (language : String)
    (st : CardFs) (m : Dim) (hm : st.originalWebp = some m) :
    (∀ am, st.artAndNameWebp = some am → am.height ≠ 1024 →
      (∀ i ∈ (validateCard cfg language st).issues,
        i.target ≠ .artAndNameWebp) ∧
      (Warn.artAndNameUnexpectedDims ∈ (validateCard cfg language st).warnings
        ↔ cfg.skipVariants = false ∧
          absDiff am.height (getExpectedDimensions .artAndName).height >
            cfg.tolerancePx)) ∧
    (∀ am, st.artOnlyWebp = some am → am.height ≠ 1024 →
      (∀ i ∈ (validateCard cfg language st).issues,
        i.target ≠ .artOnlyWebp) ∧
      (Warn.artOnlyUnexpectedDims ∈ (validateCard cfg language st).warnings
        ↔ (cfg.skipVariants = false ∧ cfg.languages.head? = some language) ∧
          absDiff am.height (getExpectedDimensions .artOnly).height >
            cfg.tolerancePx)) := by
  constructor
  · intro am hw h1024
    constructor
    · intro i hi
      rw [validateCard_issues_of_some hm, hw] at hi
      simp only [List.mem_append] at hi
      rcases hi with ((hi | hi) | hi) | hi
      · rw [mem_checkOriginalDims hi]; simp
      · rw [mem_checkOriginalAvif hi]; simp
      · rcases mem_checkArtOnly hi with hi | hi <;> rw [hi] <;> simp
      · rw [checkArtAndName_cropped_issues h1024] at hi
        split at hi <;> simp_all
    · rw [validateCard_warnings_of_some hm, hw]
      simp only [List.mem_append]
      constructor
      · rintro (((h | h) | h) | h)
        · have := mem_checkOriginalDims_warn h; simp at this
        · have := mem_checkOriginalAvif_warn h; simp at this
        · rcases mem_checkArtOnly_warn h with h | h | h | h <;> simp at h
        · exact (checkArtAndName_cropped_warnings h1024).mp h
      · intro hrhs
        exact Or.inr ((checkArtAndName_cropped_warnings h1024).mpr hrhs)
  · intro am hw h1024
    constructor
    · intro i hi
      rw [validateCard_issues_of_some hm, hw] at hi
      simp only [List.mem_append] at hi
      rcases hi with ((hi | hi) | hi) | hi
      · rw [mem_checkOriginalDims hi]; simp
      · rw [mem_checkOriginalAvif hi]; simp
      · rw [checkArtOnly_cropped_issues h1024] at hi
        split at hi <;> simp_all
      · rcases mem_checkArtAndName hi with hi | hi <;> rw [hi] <;> simp
    · rw [validateCard_warnings_of_some hm, hw]
      simp only [List.mem_append]
      constructor
      · rintro (((h | h) | h) | h)
        · have := mem_checkOriginalDims_warn h; simp at this
        · have := mem_checkOriginalAvif_warn h; simp at this
        · exact (checkArtOnly_cropped_warnings h1024).mp h
        · rcases mem_checkArtAndName_warn h with h | h | h | h <;> simp at h
      · intro hrhs
        exact Or.inl (Or.inr ((checkArtOnly_cropped_warnings h1024).mpr hrhs))

/-- Witness for C9 as amended: height 770 on the art_and_name webp is only a
warning. -/
theorem variant_tolerance_boundary_witness :
    Warn.artAndNameUnexpectedDims ∈
      (validateCard ⟨["EN"], false, 2⟩ "EN"
        ⟨some ⟨734, 1024⟩, true, some ⟨734, 603⟩, true,
         some ⟨734, 770⟩, true⟩).warnings :=
  (((variant_tolerance_boundary ⟨["EN"], false, 2⟩ "EN"
      ⟨some ⟨734, 1024⟩, true, some ⟨734, 603⟩, true,
       some ⟨734, 770⟩, true⟩
      ⟨734, 1024⟩ rfl).1 ⟨734, 770⟩ rfl (by decide)).2).mpr ⟨rfl, by decide⟩

/-- Claim C10: cropImage throws before producing its output whenever the
probed source dimensions are not exactly 734 by 1024, so the corresponding
crop fix returns failure with the card files untouched, even for deviations
inside the ±2px validation tolerance. -/
theorem crop_source_precondition (env : CropEnv) (fs : CropFs)
    (artOnly : Bool) (m : Dim) (h1 : env.sourceDim = some m)
    (h2 : ¬ (m.width = 734 ∧ m.height = 1024)) :
    cropImage env artOnly fs = (false, cleanupTemps fs) ∧
    (cleanupTemps fs).dest = fs.dest ∧
    (∀ (fenv : FixEnv) (st : CardFs) (t : Artifact),
      st.originalWebp = some m →
      fixIssue fenv ⟨.cropArtOnly, t⟩ st = (false, st) ∧
      fixIssue fenv ⟨.cropArtAndName, t⟩ st = (false, st)) := by
  refine ⟨?_, rfl, ?_⟩
  · unfold cropImage
    rw [h1]
    simp [h2]
  · intro fenv st t hst
    constructor <;> (unfold fixIssue; simp [hst, h2])

/-- Witness for C10: a 733 by 1024 source — 1px off, inside the validation
tolerance — makes the crop fail and clean up, leaving the destination. -/
theorem crop_source_precondition_witness :
    ¬ ((733 : Nat) = 734 ∧ (1024 : Nat) = 1024) ∧
    cropImage ⟨some ⟨733, 1024⟩, true, true, true⟩ true
        ⟨some ⟨5, 5⟩, none, none, none⟩ =
      (false, cleanupTemps ⟨some ⟨5, 5⟩, none, none, none⟩) :=
  ⟨by decide,
   (crop_source_precondition ⟨some ⟨733, 1024⟩, true, true, true⟩
     ⟨some ⟨5, 5⟩, none, none, none⟩ true ⟨733, 1024⟩ rfl (by decide)).1⟩

end VerifyAndFix
